import Mathlib

/-!
Verification development for the Brazilian e-commerce analytics repository.

This file gives a shallow embedding, in Lean 4, of the parts of the
repository that the specification's testable properties talk about:

* the BCB (Brazilian Central Bank) economic-series extractor
  (`src/extract/bcb_extractor.py` and `src/pipeline/extract/bcb_extract.py`,
  whose `extract_series`, `extract_and_load_all` and `main` are identical in
  all respects relevant here);
* the CSV-to-BigQuery bulk loader (`src/extract/csv_loader.py`);
* the dashboard's derived-metric computations
  (`src/dashboard/streamlit_app.py`): category elasticity, cohort
  retention, and the multi-indicator correlation guard.

Pure data transformations become Lean functions; the external effects
(HTTP fetch, BigQuery load) become explicit inputs (a fetch oracle) and
explicit state (the destination table contents).  Machine floats are
modelled by `ℚ`; the pandas missing-value `NaN` produced by
`pd.to_numeric(errors='coerce')` is modelled by `Option ℚ`, which is exact
for every behaviour the claims mention.
-/

/-! ## Character/string parsing primitives

`pandas.to_datetime(format='%d/%m/%Y')` and `pandas.to_numeric` are library
calls; they are modelled here on `List Char` by structural recursion,
restricted to the fragment the repository's inputs exercise (decimal
digits, an optional sign and a single decimal point for numbers; no
scientific notation or surrounding whitespace, which no claim touches). -/

/-- Numeric value of a decimal digit character. -/
def digitVal (c : Char) : Nat := c.toNat - '0'.toNat

/-- Is the character a decimal digit? -/
def isDigitChar (c : Char) : Bool := '0' ≤ c && c ≤ '9'

/-- The natural number denoted by a list of decimal digit characters. -/
def natOfDigits (cs : List Char) : Nat := cs.foldl (fun a c => a * 10 + digitVal c) 0

/-- Parse a non-empty all-digit character list as a natural number. -/
def parseNatDigits (cs : List Char) : Option Nat :=
  if !cs.isEmpty && cs.all isDigitChar then some (natOfDigits cs) else none

/-! ## Calendar dates

`pd.to_datetime(df['data'], format='%d/%m/%Y')` raises on any string that
is not a valid Gregorian calendar date in day/month/year order. -/

/-- Gregorian leap-year test. -/
def isLeapYear (y : Nat) : Bool := y % 4 = 0 && (y % 100 ≠ 0 || y % 400 = 0)

/-- Number of days in a month of a given year. -/
def daysInMonth (y m : Nat) : Nat :=
  if m = 2 then (if isLeapYear y then 29 else 28)
  else if m = 4 || m = 6 || m = 9 || m = 11 then 30
  else 31

/-- A calendar date, result of parsing a `DD/MM/YYYY` string. -/
structure BCBDate where
  year : Nat
  month : Nat
  day : Nat
deriving DecidableEq, Repr

/-- Validity of a calendar date: month in range and day within the month. -/
def validDate (d : BCBDate) : Bool :=
  1 ≤ d.month && d.month ≤ 12 && 1 ≤ d.day && d.day ≤ daysInMonth d.year d.month

/-- Parse a `DD/MM/YYYY` string into a valid calendar date; `none` models
the exception `pd.to_datetime(..., format='%d/%m/%Y')` raises on anything
else. -/
def parseDMY (s : String) : Option BCBDate :=
  match s.data.splitOn '/' with
  | [ds, ms, ys] =>
    match parseNatDigits ds, parseNatDigits ms, parseNatDigits ys with
    | some d, some m, some y =>
        if validDate ⟨y, m, d⟩ then some ⟨y, m, d⟩ else none
    | _, _, _ => none
  | _ => none

/-! ## Numeric values

`pd.to_numeric(df['valor'], errors='coerce')` converts each string to a
number and, crucially, maps an unparsable string to `NaN` (here `none`)
while KEEPING the row. -/

/-- Value of a fractional digit block: `digits / 10 ^ length`. -/
def fracVal (cs : List Char) : ℚ := (natOfDigits cs : ℚ) / (10 : ℚ) ^ cs.length

/-- Parse an unsigned decimal numeral, with an optional single decimal
point; either side of the point may be empty but not both. -/
def parseUnsigned (cs : List Char) : Option ℚ :=
  match cs.splitOn '.' with
  | [ip] =>
      if !ip.isEmpty && ip.all isDigitChar then some (natOfDigits ip : ℚ) else none
  | [ip, fp] =>
      if !(ip.isEmpty && fp.isEmpty) && ip.all isDigitChar && fp.all isDigitChar then
        some ((natOfDigits ip : ℚ) + fracVal fp)
      else none
  | _ => none

/-- Model of `pd.to_numeric(·, errors='coerce')` on one cell: an optional
sign followed by an unsigned decimal numeral; unparsable input becomes
`none` (pandas `NaN`). -/
def toNumeric (s : String) : Option ℚ :=
  match s.data with
  | '-' :: rest => (parseUnsigned rest).map (fun q => -q)
  | '+' :: rest => parseUnsigned rest
  | cs => parseUnsigned cs

/-! ## The BCB series extractor -/

/-- One element of the JSON array the BCB API returns: string fields
`data` (a `DD/MM/YYYY` date) and `valor` (a decimal numeral). -/
structure RawRow where
  data : String
  valor : String
deriving DecidableEq, Repr

/-- One row of the DataFrame `extract_series` returns: parsed date,
coerced numeric value (`none` = `NaN`), and the series metadata columns
added by the extractor.  The wall-clock `extracted_at` timestamp is not
modelled (no claim mentions it). -/
structure OutRow where
  data : BCBDate
  valor : Option ℚ
  series_name : String
  series_id : Nat
deriving DecidableEq, Repr

/-- The fixed `SERIES` mapping of `BCBExtractor`. -/
def SERIES : List (String × Nat) :=
  [("exchange_rate_usd", 1), ("ipca", 433), ("selic", 4189),
   ("igpm", 189), ("exchange_commercial", 12)]

/-- The row-wise content of `extract_series` after the response rows are
known: `pd.to_datetime(format='%d/%m/%Y')` raises (=> `none`) if ANY date
fails to parse, `pd.to_numeric(errors='coerce')` nulls unparsable values
row-locally, and the series metadata columns are added to every row. -/
def extractRows (name : String) (sid : Nat) : List RawRow → Option (List OutRow)
  | [] => some []
  | r :: rs =>
    match parseDMY r.data with
    | none => none
    | some d => (extractRows name sid rs).map (fun out => ⟨d, toNumeric r.valor, name, sid⟩ :: out)

/-- `BCBExtractor.extract_series`, given the rows of the API response:
an unknown series name raises `ValueError` (=> `none`); an empty response
is returned as-is; otherwise dates are parsed, values coerced, and the
metadata columns added. -/
def extract_series (series_name : String) (rows : List RawRow) : Option (List OutRow) :=
  match SERIES.lookup series_name with
  | none => none
  | some sid => extractRows series_name sid rows

/-- The sample series response from the specification: a parsable row and
a row whose `valor` does not parse as a number. -/
def sampleResponse : List RawRow :=
  [⟨"01/01/2016", "3.25"⟩, ⟨"02/01/2016", "abc"⟩]

/-! ## The batch run `extract_and_load_all` / `main`

The network fetch of one series either raises (connection error, bad
HTTP status, bad JSON) or returns the JSON rows; it is modelled by a
fetch oracle.  The `try/except` around each series in
`extract_and_load_all` catches any exception from the fetch or from the
date conversion, logs, and continues with the next series. -/

/-- Outcome of the HTTP fetch for one series: an exception, or the rows
of the JSON response. -/
inductive FetchOutcome where
  | err : FetchOutcome
  | ok : List RawRow → FetchOutcome

/-- The body of one loop iteration of `extract_and_load_all` up to the
`try`: fetch the series and run `extract_series`; `none` is any raised
exception (fetch failure or date-parse failure). -/
def seriesData (fetch : String → FetchOutcome) (name : String) : Option (List OutRow) :=
  match fetch name with
  | .err => none
  | .ok rows => extract_series name rows

/-- The `for series_name in self.SERIES.keys()` loop of
`extract_and_load_all`: an exception is caught and the series skipped;
an empty DataFrame is not appended to `all_data`. -/
def extractLoop (fetch : String → FetchOutcome) : List (String × Nat) → List (List OutRow)
  | [] => []
  | p :: rest =>
    match seriesData fetch p.1 with
    | none => extractLoop fetch rest
    | some rows => if rows.isEmpty then extractLoop fetch rest else rows :: extractLoop fetch rest

/-- `BCBExtractor.extract_and_load_all`: run the loop over the five
series; if nothing was collected return `None` and leave the destination
table untouched, otherwise load the concatenation with
`WRITE_TRUNCATE`, replacing the table contents wholesale.  Result:
(returned DataFrame, table contents after the run). -/
def extract_and_load_all (fetch : String → FetchOutcome) (table : Option (List OutRow)) :
    Option (List OutRow) × Option (List OutRow) :=
  let all_data := extractLoop fetch SERIES
  if all_data.isEmpty then (none, table)
  else (some all_data.flatten, some all_data.flatten)

/-- The `main` of `src/pipeline/extract/bcb_extract.py`: exit code 1 when
`extract_and_load_all` returns `None`, 0 otherwise. -/
def mainExit (fetch : String → FetchOutcome) : Nat :=
  match (extract_and_load_all fetch none).1 with
  | none => 1
  | some _ => 0

/-- Specification-side characterization of what the loop collects:
the data of exactly those series that neither raise nor come back
empty. -/
def collectedData (fetch : String → FetchOutcome) : List (List OutRow) :=
  SERIES.filterMap fun p =>
    (seriesData fetch p.1).bind fun rows => if rows.isEmpty then none else some rows

example : parseDMY "01/01/2016" = some ⟨2016, 1, 1⟩ := by decide
example : parseDMY "31/02/2016" = none := by decide
example : toNumeric "abc" = none := by decide
example : (extract_series "ipca" sampleResponse).map List.length = some 2 := by decide

/-! ## Supporting lemmas for the extractor -/

/-- `parseDMY` only produces valid calendar dates. -/
theorem parseDMY_valid {s : String} {d : BCBDate} (h : parseDMY s = some d) :
    validDate d = true := by
  unfold parseDMY at h
  repeat' split at h
  all_goals simp_all

/-- A successful `extractRows` keeps every row: output length equals
input length. -/
theorem extractRows_length {name : String} {sid : Nat} :
    ∀ {rows : List RawRow} {out : List OutRow},
      extractRows name sid rows = some out → out.length = rows.length := by
  intro rows
  induction rows with
  | nil => intro out h; simp [extractRows] at h; simp [← h]
  | cons r rs ih =>
    intro out h
    unfold extractRows at h
    split at h
    · exact absurd h (by simp)
    · rcases Option.map_eq_some'.mp h with ⟨tail, htail, rfl⟩
      simp [ih htail]

/-- Every row of a successful `extractRows` has a valid calendar date and
the series metadata stamped on it. -/
theorem extractRows_rows {name : String} {sid : Nat} :
    ∀ {rows : List RawRow} {out : List OutRow},
      extractRows name sid rows = some out →
      ∀ r ∈ out, validDate r.data = true ∧ r.series_name = name ∧ r.series_id = sid := by
  intro rows
  induction rows with
  | nil =>
    intro out h
    simp only [extractRows, Option.some.injEq] at h
    subst h
    intro r hr
    exact absurd hr (List.not_mem_nil r)
  | cons x xs ih =>
    intro out h
    unfold extractRows at h
    split at h
    · exact absurd h (by simp)
    · rename_i d hd
      rcases Option.map_eq_some'.mp h with ⟨tail, htail, rfl⟩
      intro r hr
      rcases List.mem_cons.mp hr with hr | hr
      · subst hr; exact ⟨parseDMY_valid hd, rfl, rfl⟩
      · exact ih htail r hr

/-- The extraction loop collects exactly the non-raising, non-empty
series, in series order. -/
theorem extractLoop_eq_filterMap (fetch : String → FetchOutcome) :
    ∀ l : List (String × Nat),
      extractLoop fetch l =
        l.filterMap fun p =>
          (seriesData fetch p.1).bind fun rows => if rows.isEmpty then none else some rows := by
  intro l
  induction l with
  | nil => rfl
  | cons p rest ih =>
    unfold extractLoop
    cases hs : seriesData fetch p.1 with
    | none => simp [List.filterMap_cons, hs, ih]
    | some rows =>
      cases rows with
      | nil => simp [List.filterMap_cons, hs, ih]
      | cons a as => simp [List.filterMap_cons, hs, ih]

/-! ## The CSV bulk loader (`src/extract/csv_loader.py`)

A CSV file is modelled by its filename, its number of malformed records,
and its list of well-formed data rows.  The BigQuery load job configured
with `WRITE_TRUNCATE` and `max_bad_records=1000` succeeds, replacing the
destination table with the file's rows, exactly when the number of bad
records does not exceed 1000; a failed job raises and leaves the
destination table unchanged. -/

/-- The fixed `TABLE_MAPPING` of `CSVLoader`. -/
def TABLE_MAPPING : List (String × String) :=
  [("olist_customers_dataset.csv", "public-Customers"),
   ("olist_geolocation_dataset.csv", "public-Geolocation"),
   ("olist_order_items_dataset.csv", "public-Order_Items"),
   ("olist_order_payments_dataset.csv", "public-order_payments"),
   ("olist_order_reviews_dataset.csv", "public-reviews"),
   ("olist_orders_dataset.csv", "public-orders"),
   ("olist_products_dataset.csv", "public-products"),
   ("olist_sellers_dataset.csv", "public-sellers"),
   ("product_category_name_translation.csv", "public-product_category")]

/-- A tabular file on disk: name, count of malformed records, and the
well-formed data rows (header excluded). -/
structure CSVFile where
  name : String
  badRecords : Nat
  rows : List String
deriving DecidableEq, Repr

/-- Outcome of the BigQuery load job for one file under
`max_bad_records=1000`: the loaded row count, or `none` for a raised
job error when the malformed-record count exceeds the tolerance. -/
def loadOutcome (f : CSVFile) : Option Nat :=
  if f.badRecords ≤ 1000 then some f.rows.length else none

/-- `CSVLoader.load_csv_to_bigquery` as a state transformer on the
destination table: on success (`WRITE_TRUNCATE`) the table contents are
replaced wholesale by the file's rows and the new row count is returned;
on failure the job raises (`none`) and the table is unchanged. -/
def load_csv_to_bigquery (f : CSVFile) (table : Option (List String)) :
    Option Nat × Option (List String) :=
  match loadOutcome f with
  | some n => (some n, some f.rows)
  | none => (none, table)

/-- Lexicographic comparison of character lists, the order `sorted(...)`
applies to the directory's filenames. -/
def charListLe : List Char → List Char → Bool
  | [], _ => true
  | _ :: _, [] => false
  | a :: as, b :: bs => if a = b then charListLe as bs else decide (a < b)

/-- Filename order used by `sorted(csv_files)`. -/
def nameLe (f g : CSVFile) : Bool := charListLe f.name.data g.name.data

/-- Insert a file into a name-sorted list. -/
def insertSorted (f : CSVFile) : List CSVFile → List CSVFile
  | [] => [f]
  | g :: gs => if nameLe f g then f :: g :: gs else g :: insertSorted f gs

/-- `sorted(csv_files)`: insertion sort by filename. -/
def sortFiles (files : List CSVFile) : List CSVFile := files.foldr insertSorted []

/-- The `for csv_path in sorted(csv_files)` loop of
`CSVLoader.load_all_csvs`: a filename outside `TABLE_MAPPING` is skipped
(logged, not fatal); a load error for one file is caught, reported and
the loop continues; successes accumulate the table list and row total. -/
def loadLoop : List CSVFile → List String × Nat
  | [] => ([], 0)
  | f :: rest =>
    match TABLE_MAPPING.lookup f.name with
    | none => loadLoop rest
    | some tbl =>
      match loadOutcome f with
      | none => loadLoop rest
      | some n =>
        let r := loadLoop rest
        (tbl :: r.1, n + r.2)

/-- `CSVLoader.load_all_csvs`: process the directory's files in sorted
filename order; returns the list of loaded tables and the total row
count, as printed in the summary. -/
def load_all_csvs (files : List CSVFile) : List String × Nat :=
  loadLoop (sortFiles files)

/-- A file is actually loaded iff its name is in the mapping and its
malformed-record count is within the tolerance. -/
def fileOk (f : CSVFile) : Bool :=
  (TABLE_MAPPING.lookup f.name).isSome && f.badRecords ≤ 1000

/-- The load loop is a result-collecting fold: it loads exactly the
mapped, within-tolerance files and never aborts on a skipped or failed
one. -/
theorem loadLoop_eq_filter :
    ∀ l : List CSVFile,
      loadLoop l =
        ((l.filter fileOk).filterMap fun f => TABLE_MAPPING.lookup f.name,
         ((l.filter fileOk).map fun f => f.rows.length).sum) := by
  intro l
  induction l with
  | nil => rfl
  | cons f rest ih =>
    unfold loadLoop
    cases hm : TABLE_MAPPING.lookup f.name with
    | none =>
      have hok : fileOk f = false := by simp [fileOk, hm]
      simp [List.filter_cons, hok, ih]
    | some tbl =>
      by_cases hb : f.badRecords ≤ 1000
      · have hok : fileOk f = true := by simp [fileOk, hm, hb]
        have hl : loadOutcome f = some f.rows.length := by simp [loadOutcome, hb]
        simp [List.filter_cons, hok, hl, hm, ih, List.filterMap_cons]
      · have hok : fileOk f = false := by simp [fileOk, hb]
        have hl : loadOutcome f = none := by simp [loadOutcome, hb]
        simp [List.filter_cons, hok, hl, ih]

/-! ## Dashboard: category economic sensitivity (elasticity)

`streamlit_app.py`, "Category Economic Sensitivity": the filtered
category-performance records are grouped by (category, exchange-rate
period) summing `order_count`, pivoted with `fillna(0)`, and — when both
period columns exist — the elasticity column is computed with the
zero-denominator policy `replace(0, nan)` followed by `fillna(0)`.
A pivot cell for (category, period) is the sum of `order_count` over the
records with that category and period, 0 when there are none; the
two-stage groupby-then-pivot composition is flattened here into that
direct sum. -/

/-- One record of the filtered category-performance mart slice
(`df_cat_filtered`), with the columns these computations read.
`order_count` is an integer count; `total_revenue_usd` a numeric
amount; `order_month` a month index. -/
structure CatRecord where
  display_category : String
  exchange_rate_period : String
  order_month : Int
  order_count : Int
  total_revenue_usd : ℚ
deriving DecidableEq, Repr

/-- Pivot-table cell: total `order_count` of a category in one
exchange-rate period; `fillna(0)` makes an absent combination 0. -/
def pivotCount (records : List CatRecord) (cat per : String) : Int :=
  ((records.filter fun r => r.display_category = cat && r.exchange_rate_period = per).map
    fun r => r.order_count).sum

/-- The elasticity formula with the zero-denominator policy:
`100 * (weak - strong) / strong.replace(0, nan)` then `fillna(0)`;
a zero strong-period count yields 0, never an error or an infinity. -/
def elasticity (strong weak : Int) : ℚ :=
  if strong = 0 then 0 else 100 * ((weak : ℚ) - (strong : ℚ)) / (strong : ℚ)

/-- The `elasticity` column entry of one category. -/
def elasticityOfCat (records : List CatRecord) (cat : String) : ℚ :=
  elasticity (pivotCount records cat "Strong BRL") (pivotCount records cat "Weak BRL")

/-- The period labels occurring in the filtered records: the columns of
the `category_variance` pivot. -/
def periodLabels (records : List CatRecord) : List String :=
  (records.map fun r => r.exchange_rate_period).dedup

/-- The category labels occurring in the filtered records: the index of
the `category_variance` pivot. -/
def categoryLabels (records : List CatRecord) : List String :=
  (records.map fun r => r.display_category).dedup

/-- The Category Economic Sensitivity chart data: produced only when both
period columns exist in the pivot, one elasticity entry per category.
(The chart then sorts descending and shows the top 15; presentation
only, and not relied on by any claim.) -/
def sensitivityChart (records : List CatRecord) : Option (List (String × ℚ)) :=
  if "Strong BRL" ∈ periodLabels records ∧ "Weak BRL" ∈ periodLabels records then
    some ((categoryLabels records).map fun c => (c, elasticityOfCat records c))
  else none

/-! ## Dashboard: customer cohort retention

`streamlit_app.py`, "Customer Cohort Retention Analysis": customers are
bucketed by first-order month; `cohort_periods` is the month span
between first and last order; for offsets 0..12 the retention rate is
the share of the cohort whose span covers the offset. -/

/-- One customer row of the customer-segments mart, reduced to the two
month columns this computation reads (a month is an absolute month
index, the `.n` of a pandas `Period` difference being their
difference). -/
structure Customer where
  first_order_month : Int
  last_order_month : Int
deriving DecidableEq, Repr

/-- `cohort_periods`: months between first and last order. -/
def cohort_periods (c : Customer) : Int := c.last_order_month - c.first_order_month

/-- The cohort of a month: customers whose first order falls in it. -/
def cohortOf (customers : List Customer) (m : Int) : List Customer :=
  customers.filter fun c => c.first_order_month = m

/-- `retained`: customers of the cohort whose span covers the offset. -/
def customersRetained (cohort : List Customer) (period : Int) : Nat :=
  (cohort.filter fun c => period ≤ cohort_periods c).length

/-- `retention_rate = retained / total_customers * 100 if total_customers > 0 else 0`. -/
def retention_rate (cohort : List Customer) (period : Int) : ℚ :=
  if 0 < cohort.length then
    (customersRetained cohort period : ℚ) / (cohort.length : ℚ) * 100
  else 0

/-! ## Dashboard: multi-indicator sensitivity (correlation guard)

`streamlit_app.py`, "Multi-Indicator Sensitivity Analysis": per category,
monthly revenue is aggregated, left-joined with the monthly indicator
averages and `dropna()`-ed; a Pearson correlation entry is appended only
behind the two observation-count guards.  Pearson's r is
cov(x,y) / sqrt(var x * var y); since only the guard is claimed, the
entry carries the rational covariance/variance triples from which r is
formed, not the irrational r itself. -/

/-- One row of `monthly_indicators`: the monthly means of the three
economic indicators (months absent from this list left-join to NaN and
are dropped by `dropna()`). -/
structure IndicatorMonth where
  order_month : Int
  avg_exchange_rate : ℚ
  inflation_rate : ℚ
  interest_rate : ℚ
deriving DecidableEq, Repr

/-- Look up the indicator row of a month. -/
def lookupIndicator (ind : List IndicatorMonth) (m : Int) : Option IndicatorMonth :=
  ind.find? fun i => i.order_month = m

/-- The distinct order months of one category's records (the groupby
keys; key order is presentation only). -/
def catMonthsOf (records : List CatRecord) (cat : String) : List Int :=
  ((records.filter fun r => r.display_category = cat).map fun r => r.order_month).dedup

/-- `cat_data`: one category's records grouped by month, summing
revenue (the summed `order_count` column is not read afterwards). -/
def categoryMonthly (records : List CatRecord) (cat : String) : List (Int × ℚ) :=
  (catMonthsOf records cat).map fun m =>
    (m, ((records.filter fun r => r.display_category = cat && r.order_month = m).map
          fun r => r.total_revenue_usd).sum)

/-- `merged`: the category's monthly revenue left-joined with the
monthly indicators, rows with a missing indicator month dropped. -/
def mergedObs (records : List CatRecord) (cat : String) (ind : List IndicatorMonth) :
    List (ℚ × IndicatorMonth) :=
  (categoryMonthly records cat).filterMap fun p =>
    (lookupIndicator ind p.1).map fun i => (p.2, i)

/-- Mean of a list of rationals (0 on the empty list, which the guards
exclude). -/
def listMean (xs : List ℚ) : ℚ := if xs.length = 0 then 0 else xs.sum / (xs.length : ℚ)

/-- Covariance of two equal-length observation lists. -/
def covariance (xs ys : List ℚ) : ℚ :=
  listMean (List.zipWith (fun a b => a * b) xs ys) - listMean xs * listMean ys

/-- The (covariance, variance, variance) triple behind one Pearson
correlation: r = cov / sqrt(var_x * var_y). -/
def corrStats (pairs : List (ℚ × ℚ)) : ℚ × ℚ × ℚ :=
  (covariance (pairs.map Prod.fst) (pairs.map Prod.snd),
   covariance (pairs.map Prod.fst) (pairs.map Prod.fst),
   covariance (pairs.map Prod.snd) (pairs.map Prod.snd))

/-- One appended element of `category_correlations`. -/
structure CorrEntry where
  category : String
  exchange_rate_corr : ℚ × ℚ × ℚ
  inflation_corr : ℚ × ℚ × ℚ
  interest_rate_corr : ℚ × ℚ × ℚ

/-- The per-category body of the correlation loop: aggregate monthly,
require more than 3 monthly data points, join with the indicators and
drop missing months, require more than 2 joined observations, then
compute the three correlations. -/
def processCategory (records : List CatRecord) (ind : List IndicatorMonth) (cat : String) :
    Option CorrEntry :=
  let cat_data := categoryMonthly records cat
  if 3 < cat_data.length then
    let merged := mergedObs records cat ind
    if 2 < merged.length then
      some ⟨cat,
        corrStats (merged.map fun p => (p.1, p.2.avg_exchange_rate)),
        corrStats (merged.map fun p => (p.1, p.2.inflation_rate)),
        corrStats (merged.map fun p => (p.1, p.2.interest_rate))⟩
    else none
  else none

/-! # Claim theorems -/

/-! ## C1: extractor output

The code coerces an unparsable `valor` to `NaN` (`pd.to_numeric(...,
errors='coerce')`) but never drops the row: there is no `dropna` between
the coercion and the return.  The sample response therefore yields TWO
records, the second with a null value, refuting the claim's
exactly-one-record consequence; dates are valid and the row count equals
(hence never exceeds) the response row count. -/

/-- Concrete evaluation of `extract_series` on the specification's
sample response: both rows survive, the second with a null value. -/
theorem extract_series_sample_eval :
    extract_series "ipca" sampleResponse =
      some [⟨⟨2016, 1, 1⟩, some (3.25 : ℚ), "ipca", 433⟩,
            ⟨⟨2016, 1, 2⟩, none, "ipca", 433⟩] := by
  have h : extract_series "ipca" sampleResponse =
      some [⟨⟨2016, 1, 1⟩, toNumeric "3.25", "ipca", 433⟩,
            ⟨⟨2016, 1, 2⟩, toNumeric "abc", "ipca", 433⟩] := rfl
  rw [h]
  have h2 : toNumeric "3.25" = some (3.25 : ℚ) := by
    have e : toNumeric "3.25" = some ((natOfDigits ['3'] : ℚ) + fracVal ['2', '5']) := rfl
    rw [e]
    have h3 : natOfDigits ['3'] = 3 := by decide
    have h25 : natOfDigits ['2', '5'] = 25 := by decide
    rw [show fracVal ['2', '5'] = (natOfDigits ['2', '5'] : ℚ) / (10 : ℚ) ^ 2 from rfl, h3, h25]
    norm_num
  have h3 : toNumeric "abc" = none := by decide
  rw [h2, h3]

/-- Claim C1, counterexample: on the sample response
`[(01/01/2016, 3.25), (02/01/2016, abc)]` the extractor does NOT yield
exactly one record — the row with the unparsable value is kept. -/
theorem extract_series_sample_not_one_record :
    ¬ ∃ out : List OutRow, extract_series "ipca" sampleResponse = some out ∧ out.length = 1 := by
  rintro ⟨out, hout, hlen⟩
  rw [extract_series_sample_eval, Option.some.injEq] at hout
  rw [← hout] at hlen
  exact absurd hlen (by decide)

/-- Claim C1 (amended): for every BCB series response on which
`extract_series` succeeds, every output row's date is a valid calendar
date parsed from a day-month-year string and the output row count equals
(hence never exceeds) the response row count; rows whose value does not
parse as a number are kept with a null value rather than excluded — in
particular the sample response yields two records, 2016-01-01 with value
3.25 and 2016-01-02 with a null value. -/
theorem extract_series_keeps_all_rows :
    (∀ (name : String) (rows : List RawRow) (out : List OutRow),
        extract_series name rows = some out →
        out.length = rows.length ∧ ∀ r ∈ out, validDate r.data = true) ∧
    extract_series "ipca" sampleResponse =
      some [⟨⟨2016, 1, 1⟩, some (3.25 : ℚ), "ipca", 433⟩,
            ⟨⟨2016, 1, 2⟩, none, "ipca", 433⟩] := by
  constructor
  · intro name rows out h
    unfold extract_series at h
    split at h
    · exact absurd h (by simp)
    · exact ⟨extractRows_length h, fun r hr => (extractRows_rows h r hr).1⟩
  · exact extract_series_sample_eval

/-- Witness for C1 at the sample response. -/
theorem extract_series_keeps_all_rows_witness :
    extract_series "ipca" sampleResponse =
      some [⟨⟨2016, 1, 1⟩, some (3.25 : ℚ), "ipca", 433⟩,
            ⟨⟨2016, 1, 2⟩, none, "ipca", 433⟩] ∧
    ([⟨⟨2016, 1, 1⟩, some (3.25 : ℚ), "ipca", 433⟩,
      ⟨⟨2016, 1, 2⟩, none, "ipca", 433⟩] : List OutRow).length = sampleResponse.length ∧
    ∀ r ∈ ([⟨⟨2016, 1, 1⟩, some (3.25 : ℚ), "ipca", 433⟩,
            ⟨⟨2016, 1, 2⟩, none, "ipca", 433⟩] : List OutRow), validDate r.data = true :=
  ⟨extract_series_keeps_all_rows.2,
   extract_series_keeps_all_rows.1 "ipca" sampleResponse
     [⟨⟨2016, 1, 1⟩, some (3.25 : ℚ), "ipca", 433⟩, ⟨⟨2016, 1, 2⟩, none, "ipca", 433⟩]
     extract_series_keeps_all_rows.2⟩

/-! ## C2, C3, C9: elasticity -/

/-- The specification's worked elasticity example, as category
performance records: Electronics with 100 strong-BRL and 150 weak-BRL
orders. -/
def electronicsSample : List CatRecord :=
  [⟨"Electronics", "Strong BRL", 0, 100, 0⟩, ⟨"Electronics", "Weak BRL", 0, 150, 0⟩]

/-- A filtered record set in which category Toys sells only during
strong BRL and category Books only during weak BRL. -/
def mixedSample : List CatRecord :=
  [⟨"Toys", "Strong BRL", 0, 40, 0⟩, ⟨"Books", "Weak BRL", 0, 80, 0⟩]

/-- Claim C2: for every category with both exchange-rate-period buckets
and a nonzero strong-BRL order count, the elasticity equals
100 * (weak - strong) / strong; on the specification's Electronics
example (strong 100, weak 150) it is exactly 50. -/
theorem elasticity_formula_nonzero_strong :
    (∀ (records : List CatRecord) (cat : String),
        pivotCount records cat "Strong BRL" ≠ 0 →
        elasticityOfCat records cat =
          100 * ((pivotCount records cat "Weak BRL" : ℚ) -
              (pivotCount records cat "Strong BRL" : ℚ)) /
            (pivotCount records cat "Strong BRL" : ℚ)) ∧
    elasticityOfCat electronicsSample "Electronics" = 50 := by
  constructor
  · intro records cat h
    unfold elasticityOfCat elasticity
    rw [if_neg h]
  · have hs : pivotCount electronicsSample "Electronics" "Strong BRL" = 100 := by decide
    have hw : pivotCount electronicsSample "Electronics" "Weak BRL" = 150 := by decide
    unfold elasticityOfCat
    rw [hs, hw]
    unfold elasticity
    norm_num

/-- Witness for C2 at the Electronics example. -/
theorem elasticity_formula_nonzero_strong_witness :
    pivotCount electronicsSample "Electronics" "Strong BRL" ≠ 0 ∧
    elasticityOfCat electronicsSample "Electronics" =
      100 * ((pivotCount electronicsSample "Electronics" "Weak BRL" : ℚ) -
          (pivotCount electronicsSample "Electronics" "Strong BRL" : ℚ)) /
        (pivotCount electronicsSample "Electronics" "Strong BRL" : ℚ) :=
  ⟨by decide,
   elasticity_formula_nonzero_strong.1 electronicsSample "Electronics" (by decide)⟩

/-- Claim C3: a category whose strong-BRL order count is 0 gets
elasticity exactly 0 — the `replace(0, nan)` + `fillna(0)` policy; the
computation is total on `ℚ`, so every category's elasticity is a defined
finite number (no division error, no NaN, no infinity). -/
theorem elasticity_zero_denominator :
    ∀ (records : List CatRecord) (cat : String),
      pivotCount records cat "Strong BRL" = 0 → elasticityOfCat records cat = 0 := by
  intro records cat h
  unfold elasticityOfCat elasticity
  rw [if_pos h]

/-- Witness for C3: Books has no strong-BRL orders in `mixedSample`. -/
theorem elasticity_zero_denominator_witness :
    pivotCount mixedSample "Books" "Strong BRL" = 0 ∧
    elasticityOfCat mixedSample "Books" = 0 :=
  ⟨by decide, elasticity_zero_denominator mixedSample "Books" (by decide)⟩

/-! ## C4, C10: cohort retention -/

/-- A small customer-segments slice: two customers first purchasing in
month 0 (spans 1 and 0 months) and one in month 1. -/
def sampleCustomers : List Customer := [⟨0, 1⟩, ⟨0, 0⟩, ⟨1, 3⟩]

/-- Claim C4: for every nonempty cohort of customers grouped by
first-purchase month — whose first purchase is, per the data model, not
after their last — and every offset 0..12, the retention rate is the
count of customers whose purchase span covers the offset divided by the
cohort size times 100; at offset 0 it is exactly 100. -/
theorem cohort_retention_formula :
    ∀ (customers : List Customer) (m : Int),
      cohortOf customers m ≠ [] →
      (∀ c ∈ cohortOf customers m, c.first_order_month ≤ c.last_order_month) →
      (∀ n : Nat, n ≤ 12 →
        retention_rate (cohortOf customers m) (n : Int) =
          (customersRetained (cohortOf customers m) (n : Int) : ℚ) /
            ((cohortOf customers m).length : ℚ) * 100) ∧
      retention_rate (cohortOf customers m) 0 = 100 := by
  intro customers m hne hfl
  have hpos : 0 < (cohortOf customers m).length := List.length_pos.mpr hne
  constructor
  · intro n _
    unfold retention_rate
    rw [if_pos hpos]
  · have hall : (cohortOf customers m).filter (fun c => (0 : Int) ≤ cohort_periods c) =
        cohortOf customers m := by
      apply List.filter_eq_self.mpr
      intro c hc
      simpa [cohort_periods, sub_nonneg] using hfl c hc
    unfold retention_rate customersRetained
    rw [if_pos hpos, hall]
    have hlen : ((cohortOf customers m).length : ℚ) ≠ 0 := by
      exact_mod_cast Nat.pos_iff_ne_zero.mp hpos
    rw [div_self hlen]
    norm_num

/-- Witness for C4 at the month-0 cohort of `sampleCustomers`. -/
theorem cohort_retention_formula_witness :
    cohortOf sampleCustomers 0 ≠ [] ∧
    (∀ c ∈ cohortOf sampleCustomers 0, c.first_order_month ≤ c.last_order_month) ∧
    retention_rate (cohortOf sampleCustomers 0) 0 = 100 :=
  ⟨by decide, by decide,
   (cohort_retention_formula sampleCustomers 0 (by decide) (by decide)).2⟩

/-- A customer whose span covers an offset also covers every smaller
offset, so the retained count never grows with the offset. -/
theorem customersRetained_anti (cohort : List Customer) (k : Int) :
    customersRetained cohort (k + 1) ≤ customersRetained cohort k := by
  unfold customersRetained
  rw [← List.countP_eq_length_filter, ← List.countP_eq_length_filter]
  apply List.countP_mono_left
  intro c _ hc
  simp only [decide_eq_true_eq] at hc ⊢
  omega

/-- Claim C10: for every cohort and offset n in 0..11, the retention
rate at offset n+1 is at most the rate at offset n. -/
theorem retention_rate_antitone :
    ∀ (cohort : List Customer) (n : Nat), n ≤ 11 →
      retention_rate cohort ((n : Int) + 1) ≤ retention_rate cohort (n : Int) := by
  intro cohort n _
  unfold retention_rate
  by_cases h : 0 < cohort.length
  · rw [if_pos h, if_pos h]
    have hmono := customersRetained_anti cohort (n : Int)
    have hc : (customersRetained cohort ((n : Int) + 1) : ℚ) ≤
        (customersRetained cohort (n : Int) : ℚ) := by exact_mod_cast hmono
    have hL : (0 : ℚ) < (cohort.length : ℚ) := by exact_mod_cast h
    gcongr
  · rw [if_neg h, if_neg h]

/-- Witness for C10 at offset 0 on the month-0 cohort. -/
theorem retention_rate_antitone_witness :
    (0 : Nat) ≤ 11 ∧
    retention_rate (cohortOf sampleCustomers 0) (((0 : Nat) : Int) + 1) ≤
      retention_rate (cohortOf sampleCustomers 0) ((0 : Nat) : Int) :=
  ⟨by decide, retention_rate_antitone (cohortOf sampleCustomers 0) 0 (by decide)⟩

/-! ## C5: batch extraction run -/

/-- Post-processing of one series' outcome in the loop: `none` exactly
when the series raised or came back empty. -/
theorem bind_nonempty_none_iff (o : Option (List OutRow)) :
    (o.bind fun rows => if rows.isEmpty then none else some rows) = none ↔
      o = none ∨ o = some [] := by
  cases o with
  | none => simp
  | some rows => cases rows <;> simp

/-- Claim C5: an exception while fetching one series is caught and the
series skipped (the run is a total function of the per-series outcomes,
collecting exactly the non-raising non-empty series); the run fails —
`None` result, untouched table, exit code 1 — exactly when no series
returns data; otherwise the destination table is replaced wholesale by
the concatenation, whatever it previously held. -/
theorem batch_run_fail_iff :
    ∀ (fetch : String → FetchOutcome) (table : Option (List OutRow)),
      ((extract_and_load_all fetch table).1 = none ↔
        ∀ p ∈ SERIES, seriesData fetch p.1 = none ∨ seriesData fetch p.1 = some []) ∧
      extract_and_load_all fetch table =
        (if (collectedData fetch).isEmpty then (none, table)
         else (some (collectedData fetch).flatten, some (collectedData fetch).flatten)) ∧
      mainExit fetch = (if (collectedData fetch).isEmpty then 1 else 0) := by
  intro fetch table
  have hchar : ∀ t : Option (List OutRow),
      extract_and_load_all fetch t =
        (if (collectedData fetch).isEmpty then (none, t)
         else (some (collectedData fetch).flatten, some (collectedData fetch).flatten)) := by
    intro t
    unfold extract_and_load_all
    rw [extractLoop_eq_filterMap fetch SERIES]
    rfl
  have hnil : collectedData fetch = [] ↔
      (∀ p ∈ SERIES, seriesData fetch p.1 = none ∨ seriesData fetch p.1 = some []) := by
    unfold collectedData
    rw [List.filterMap_eq_nil_iff]
    constructor
    · intro h p hp
      exact (bind_nonempty_none_iff _).mp (h p hp)
    · intro h p hp
      exact (bind_nonempty_none_iff _).mpr (h p hp)
  refine ⟨?_, hchar table, ?_⟩
  · rw [hchar table]
    by_cases he : (collectedData fetch).isEmpty = true
    · rw [if_pos he]
      exact iff_of_true rfl (hnil.mp (List.isEmpty_iff.mp he))
    · rw [if_neg he]
      constructor
      · intro hcontra
        exact absurd hcontra (by simp)
      · intro hall
        have : (collectedData fetch).isEmpty = true := by
          rw [hnil.mpr hall]
          rfl
        exact absurd this he
  · unfold mainExit
    rw [hchar none]
    by_cases he : (collectedData fetch).isEmpty = true
    · rw [if_pos he, if_pos he]
    · rw [if_neg he, if_neg he]

/-! ## C6, C7: the CSV bulk loader -/

/-- Claim C6: the bulk loader loads exactly the directory's files that
are both in the filename-to-table mapping and within the 1000
malformed-record tolerance — an unmapped file is skipped and a failed
load dropped without aborting the remaining files — and a single file's
load succeeds iff its malformed-record count is at most 1000. -/
theorem bulk_loader_characterization :
    ∀ files : List CSVFile,
      load_all_csvs files =
        (((sortFiles files).filter fileOk).filterMap fun f => TABLE_MAPPING.lookup f.name,
         (((sortFiles files).filter fileOk).map fun f => f.rows.length).sum) ∧
      (∀ (f : CSVFile) (t : Option (List String)),
        ((load_csv_to_bigquery f t).1.isSome ↔ f.badRecords ≤ 1000)) := by
  intro files
  refine ⟨loadLoop_eq_filter (sortFiles files), ?_⟩
  intro f t
  unfold load_csv_to_bigquery loadOutcome
  by_cases hb : f.badRecords ≤ 1000
  · simp [hb]
  · simp [hb]

/-- Claim C7: loading is idempotent — every load uses truncate-and-
replace write mode, so loading the same file into the same table twice
in a row returns the same row count and leaves the same table state as
loading it once (a failed load leaves the table unchanged both times). -/
theorem load_truncate_idempotent :
    ∀ (f : CSVFile) (t : Option (List String)),
      load_csv_to_bigquery f (load_csv_to_bigquery f t).2 = load_csv_to_bigquery f t := by
  intro f t
  unfold load_csv_to_bigquery
  cases h : loadOutcome f with
  | none => simp
  | some n => simp

/-! ## C8: correlation observation guard -/

/-- A category with four monthly observations, all with matching
indicator months. -/
def corrSampleRecords : List CatRecord :=
  [⟨"toys", "Strong BRL", 1, 5, 10⟩, ⟨"toys", "Strong BRL", 2, 6, 20⟩,
   ⟨"toys", "Weak BRL", 3, 7, 30⟩, ⟨"toys", "Weak BRL", 4, 8, 40⟩]

/-- Monthly indicator averages covering months 1..4. -/
def corrSampleInd : List IndicatorMonth :=
  [⟨1, 3, 1, 10⟩, ⟨2, 4, 2, 11⟩, ⟨3, 5, 3, 12⟩, ⟨4, 6, 4, 13⟩]

/-- Claim C8: a Pearson correlation entry for a category is computed
only when, after joining the category's monthly revenue with the
indicator series by month and dropping missing months, more than the
fixed minimum of 2 observations remain (the code additionally requires
more than 3 pre-join monthly data points); a category at or below the
minimum produces no correlation entry. -/
theorem correlation_observation_guard :
    ∀ (records : List CatRecord) (ind : List IndicatorMonth) (cat : String),
      ((processCategory records ind cat).isSome →
        2 < (mergedObs records cat ind).length) ∧
      ((mergedObs records cat ind).length ≤ 2 →
        processCategory records ind cat = none) := by
  intro records ind cat
  constructor
  · intro h
    simp only [processCategory] at h
    split_ifs at h with h3 h2
    · exact h2
    · simp at h
    · simp at h
  · intro h
    simp only [processCategory]
    split_ifs with h3 h2
    · omega
    · rfl
    · rfl

/-- Witness for C8: the four-month sample passes both guards. -/
theorem correlation_observation_guard_witness :
    2 < (mergedObs corrSampleRecords "toys" corrSampleInd).length :=
  (correlation_observation_guard corrSampleRecords corrSampleInd "toys").1 (by decide)

/-! ## C9: elasticity chart gating and one-period categories -/

/-- Claim C9: the elasticity chart is produced exactly when both period
labels occur in the filtered data; a category's missing period counts
as 0 after the pivot's fillna, so a category with only strong-BRL
orders (positive count) gets elasticity -100 and a category with only
weak-BRL orders gets 0 via the zero-denominator policy. -/
theorem sensitivity_chart_cases :
    ∀ records : List CatRecord,
      ((sensitivityChart records).isSome ↔
        ("Strong BRL" ∈ records.map (fun r => r.exchange_rate_period) ∧
         "Weak BRL" ∈ records.map (fun r => r.exchange_rate_period))) ∧
      (∀ cat : String,
        (∀ r ∈ records, r.display_category = cat → r.exchange_rate_period = "Strong BRL") →
        0 < pivotCount records cat "Strong BRL" →
        elasticityOfCat records cat = -100) ∧
      (∀ cat : String,
        (∀ r ∈ records, r.display_category = cat → r.exchange_rate_period = "Weak BRL") →
        elasticityOfCat records cat = 0) := by
  intro records
  have hmem : ∀ per : String,
      per ∈ periodLabels records ↔ per ∈ records.map (fun r => r.exchange_rate_period) :=
    fun per => List.mem_dedup
  refine ⟨?_, ?_, ?_⟩
  · unfold sensitivityChart
    by_cases h : ("Strong BRL" ∈ periodLabels records ∧ "Weak BRL" ∈ periodLabels records)
    · rw [if_pos h]
      exact iff_of_true rfl ⟨(hmem _).mp h.1, (hmem _).mp h.2⟩
    · rw [if_neg h]
      exact iff_of_false (by simp) (fun hc => h ⟨(hmem _).mpr hc.1, (hmem _).mpr hc.2⟩)
  · intro cat honly hpos
    have hw : pivotCount records cat "Weak BRL" = 0 := by
      unfold pivotCount
      have hnil : records.filter
          (fun r => r.display_category = cat && r.exchange_rate_period = "Weak BRL") = [] := by
        apply List.filter_eq_nil_iff.mpr
        intro r hr
        by_cases hc : r.display_category = cat
        · have hper := honly r hr hc
          simp [hc, hper]
        · simp [hc]
      rw [hnil]
      rfl
    unfold elasticityOfCat
    rw [hw]
    unfold elasticity
    have hne : pivotCount records cat "Strong BRL" ≠ 0 := by omega
    rw [if_neg hne]
    have hsq : (pivotCount records cat "Strong BRL" : ℚ) ≠ 0 := by exact_mod_cast hne
    rw [Int.cast_zero]
    field_simp
  · intro cat honly
    have hs : pivotCount records cat "Strong BRL" = 0 := by
      unfold pivotCount
      have hnil : records.filter
          (fun r => r.display_category = cat && r.exchange_rate_period = "Strong BRL") = [] := by
        apply List.filter_eq_nil_iff.mpr
        intro r hr
        by_cases hc : r.display_category = cat
        · have hper := honly r hr hc
          simp [hc, hper]
        · simp [hc]
      rw [hnil]
      rfl
    unfold elasticityOfCat elasticity
    rw [if_pos hs]

/-- Witness for C9: in `mixedSample`, Toys sells only during strong BRL
(count 40) and Books only during weak BRL. -/
theorem sensitivity_chart_cases_witness :
    (∀ r ∈ mixedSample, r.display_category = "Toys" → r.exchange_rate_period = "Strong BRL") ∧
    0 < pivotCount mixedSample "Toys" "Strong BRL" ∧
    elasticityOfCat mixedSample "Toys" = -100 ∧
    (∀ r ∈ mixedSample, r.display_category = "Books" → r.exchange_rate_period = "Weak BRL") ∧
    elasticityOfCat mixedSample "Books" = 0 :=
  ⟨by decide, by decide,
   (sensitivity_chart_cases mixedSample).2.1 "Toys" (by decide) (by decide),
   by decide,
   (sensitivity_chart_cases mixedSample).2.2 "Books" (by decide)⟩

/-! ## Concrete instantiations of the loader and batch-run theorems -/

/-- Witness for C5: when every fetch raises, the run returns `None`,
leaves the table untouched and exits 1. -/
theorem batch_run_fail_iff_witness :
    (extract_and_load_all (fun _ => FetchOutcome.err) none).1 = none ∧
    mainExit (fun _ => FetchOutcome.err) = 1 := by
  refine ⟨(batch_run_fail_iff (fun _ => FetchOutcome.err) none).1.mpr ?_, ?_⟩
  · decide
  · have h := (batch_run_fail_iff (fun _ => FetchOutcome.err) none).2.2
    rw [h]
    decide

/-- Witness for C6 at a mapped, well-formed file. -/
theorem bulk_loader_characterization_witness :
    ((⟨"olist_orders_dataset.csv", 0, ["r1", "r2"]⟩ : CSVFile).badRecords ≤ 1000) ∧
    (load_csv_to_bigquery ⟨"olist_orders_dataset.csv", 0, ["r1", "r2"]⟩ none).1.isSome :=
  ⟨by decide,
   ((bulk_loader_characterization []).2 ⟨"olist_orders_dataset.csv", 0, ["r1", "r2"]⟩ none).mpr
     (by decide)⟩

/-- Witness for C7 at a concrete file and empty prior table. -/
theorem load_truncate_idempotent_witness :
    load_csv_to_bigquery ⟨"olist_orders_dataset.csv", 0, ["r1", "r2"]⟩
        (load_csv_to_bigquery ⟨"olist_orders_dataset.csv", 0, ["r1", "r2"]⟩ none).2 =
      load_csv_to_bigquery ⟨"olist_orders_dataset.csv", 0, ["r1", "r2"]⟩ none :=
  load_truncate_idempotent ⟨"olist_orders_dataset.csv", 0, ["r1", "r2"]⟩ none
